import Mathlib

/-!
Shallow embedding of `bspyproc/architectures/multiplexing/dnpu.py`:
the DNPU multiplexing architectures (`DNPUArchitecture`, `TwoToOneDNPU`,
`TwoToTwoToOneDNPU`).

Modelling conventions:
* Scalars are `ℚ` (the source computes with floating point; every constant in
  the file is a decimal literal, so `ℚ` represents the computed values exactly
  for the rational inputs used here, and keeps all definitions executable).
* A `[batch, 1]` tensor column is a `List ℚ`; a `[batch, 2]` tensor is a
  `List (ℚ × ℚ)`; a single `[1, 2]` parameter row such as `offset` is `ℚ × ℚ`.
* Randomness (`np.random.rand`, `Tensor.uniform_`) enters as explicit
  arguments: a draw `u` with the range the sampler guarantees (`[0, 1)` for
  `np.random.rand`, `[a, b]` for `uniform_(a, b)`) stated as hypotheses.
* External collaborators (the device processors returned by `get_processor`,
  the torch `BatchNorm1d` module's normalisation function, `np.sqrt`) are
  opaque: they are carried as structure fields / function arguments, exactly
  as the spec declares them out of scope.
-/

namespace DNPU

/-- `torch.relu` on a scalar. -/
def relu (x : ℚ) : ℚ := max x 0

/-- `DNPUArchitecture.clip`: `torch.clamp(x, min=-clipping_value, max=clipping_value)`
on a scalar element (clamp applies the lower bound, then the upper bound). -/
def clip (x clipping_value : ℚ) : ℚ := min (max x (-clipping_value)) clipping_value

/-- `DNPUArchitecture.clip` applied elementwise to a tensor (list of elements). -/
def clipT (xs : List ℚ) (clipping_value : ℚ) : List ℚ :=
  xs.map (fun x => clip x clipping_value)

/-- The configuration keys `dnpu.py` reads (source: `DNPUArchitecture.__init__`,
`offset_penalty`, `scale_penalty`, and the concrete architectures). -/
structure Configs where
  offset_min : ℚ
  offset_max : ℚ
  scale_min : ℚ
  scale_max : ℚ
  conversion_offset : ℚ
  output_clipping_value : ℚ
  batch_norm : Bool
deriving DecidableEq

/-- `DNPUArchitecture.init_offset`:
`offset = offset_min + offset_max * np.random.rand(1, 2)`, with the random
draw `u ∈ [0,1) × [0,1)` made explicit. Note the source multiplies the draw by
`offset_max`, it does not rescale by `(offset_max - offset_min)`. -/
def init_offset (offset_min offset_max : ℚ) (u : ℚ × ℚ) : ℚ × ℚ :=
  (offset_min + offset_max * u.1, offset_min + offset_max * u.2)

/-- A scale value together with its trainability: `trainable = true` models
`nn.Parameter` (registered with the optimiser, so gradient steps update it),
`trainable = false` models a plain tensor (never touched by the optimiser). -/
structure ScaleParam where
  val : ℚ
  trainable : Bool
deriving DecidableEq

/-- `DNPUArchitecture.init_scale`: if `configs['scale']['min'] == 1.0 and
configs['scale']['max'] == 1.0` the scale is the plain (non-parameter) tensor
`[1.0]`; otherwise it is `nn.Parameter(scale_min + scale_max * rand(1))` with
the draw `u ∈ [0,1)` explicit. -/
def init_scale (cfg : Configs) (u : ℚ) : ScaleParam :=
  if cfg.scale_min = 1 ∧ cfg.scale_max = 1 then ⟨1, false⟩
  else ⟨cfg.scale_min + cfg.scale_max * u, true⟩

/-- `DNPUArchitecture.offset_penalty`:
`sum(relu(offset_min - offset) + relu(offset - offset_max))` over the two
components of the `[1, 2]` offset tensor. -/
def offset_penalty (cfg : Configs) (offset : ℚ × ℚ) : ℚ :=
  (relu (cfg.offset_min - offset.1) + relu (offset.1 - cfg.offset_max))
    + (relu (cfg.offset_min - offset.2) + relu (offset.2 - cfg.offset_max))

/-- `DNPUArchitecture.scale_penalty`:
`sum(relu(scale_min - scale) + relu(scale - scale_max))` over the scalar scale. -/
def scale_penalty (cfg : Configs) (scale : ℚ) : ℚ :=
  relu (cfg.scale_min - scale) + relu (scale - cfg.scale_max)

/-- The state of a torch `nn.BatchNorm1d(2, affine=False)` module that
`dnpu.py` observes: the two per-channel running statistics. -/
structure BatchNorm1d where
  running_mean : ℚ × ℚ
  running_var : ℚ × ℚ
deriving DecidableEq

/-- A freshly constructed `nn.BatchNorm1d(2, affine=False)`:
torch initialises `running_mean = 0` and `running_var = 1` per channel. -/
def freshBatchNorm : BatchNorm1d := ⟨(0, 0), (1, 1)⟩

/-- The divisor of `DNPUArchitecture.current_to_voltage`: the expression
`4 * std` that the source divides `1.8` by, with no guard in front of it. -/
def c2v_divisor (std : ℚ) : ℚ := 4 * std

/-- `DNPUArchitecture.current_to_voltage`:
`torch.tensor(1.8 / (4 * std)) * clip(x, 2 * std) + conversion_offset`
on a scalar element (the idealised real-arithmetic value). -/
def current_to_voltage (conversion_offset x std : ℚ) : ℚ :=
  (1.8 / c2v_divisor std) * clip x (2 * std) + conversion_offset

/-- `DNPUArchitecture.current_to_voltage` with the floating-point
division-by-zero made observable: the source divides by `4 * std`
unconditionally (there is no branch in the code — the `if` here is not a
guard in the program but the embedding's detector for the zero divisor, which
in the float semantics of the source produces a non-finite value, `none`). -/
def current_to_voltage_checked (conversion_offset x std : ℚ) : Option ℚ :=
  if c2v_divisor std = 0 then none
  else some (current_to_voltage conversion_offset x std)

/-- `DNPUArchitecture.batch_norm`: `h = bn(cat(x1, x2, dim=1))` and
`std = np.sqrt(bn.running_var)`. The torch module's normalisation function
(`bnApply`) and `np.sqrt` are external collaborators passed as arguments;
the `std` returned is always derived from the *running* variance of `bn`. -/
def batch_norm (bnApply : BatchNorm1d → List (ℚ × ℚ) → List (ℚ × ℚ))
    (sqrt : ℚ → ℚ) (bn : BatchNorm1d) (x1 x2 : List ℚ) :
    List (ℚ × ℚ) × (ℚ × ℚ) :=
  (bnApply bn (x1.zip x2), (sqrt bn.running_var.1, sqrt bn.running_var.2))

/-- External device processor (`get_processor(configs)`), per the collaborator
interface: `forward : [batch,2] → [batch,1]` (one row at a time),
`get_amplification_value()`, and the value its `regularizer()` returns. -/
structure Device where
  forward : ℚ × ℚ → ℚ
  amplification : ℚ
  reg : ℚ

/-- A device's clipping value as computed by `init_clipping_values`:
`base_clipping_value * node.get_amplification_value()`. -/
def clipping_value (base : ℚ) (d : Device) : ℚ := base * d.amplification

/-- The state owned by a `TwoToTwoToOneDNPU` instance (source lines 134–156):
five device processors, the affine parameters, the two batch-norm modules,
the conversion offset, and the five precomputed clipping values. -/
structure TwoToTwoToOneState where
  input_node1 : Device
  input_node2 : Device
  hidden_node1 : Device
  hidden_node2 : Device
  output_node : Device
  offset : ℚ × ℚ
  scale : ScaleParam
  bn1 : BatchNorm1d
  bn2 : BatchNorm1d
  conversion_offset : ℚ
  input_node1_clipping_value : ℚ
  input_node2_clipping_value : ℚ
  hidden_node1_clipping_value : ℚ
  hidden_node2_clipping_value : ℚ
  output_node_clipping_value : ℚ

/-- `TwoToTwoToOneDNPU.regularizer` (source lines 169–173): the sum of the
regularizers of `input_node1`, `input_node2` and `output_node` — and of those
only — plus `offset_penalty()` and `scale_penalty()`. -/
def regularizer (cfg : Configs) (st : TwoToTwoToOneState) : ℚ :=
  (st.input_node1.reg + st.input_node2.reg + st.output_node.reg)
    + offset_penalty cfg st.offset + scale_penalty cfg st.scale.val

/-- From the spec's words (refinement target, to be compared with
`regularizer`): the sum of `offset_penalty()`, `scale_penalty()` and the
regularizer of *every* owned device — input1, input2, hidden1, hidden2,
output. -/
def regularizer_spec (cfg : Configs) (st : TwoToTwoToOneState) : ℚ :=
  (st.input_node1.reg + st.input_node2.reg + st.hidden_node1.reg
      + st.hidden_node2.reg + st.output_node.reg)
    + offset_penalty cfg st.offset + scale_penalty cfg st.scale.val

/-- `TwoToTwoToOneDNPU.process_layer` (source lines 175–194), with the
`torch.save` debug dumps (pure side channel) dropped: clip each device column
to its static clipping value, batch-normalise, then current-to-voltage each
channel with its running-std, and re-concatenate. -/
def process_layer (bnApply : BatchNorm1d → List (ℚ × ℚ) → List (ℚ × ℚ))
    (sqrt : ℚ → ℚ) (conversion_offset : ℚ) (x1 x2 : List ℚ)
    (bn : BatchNorm1d) (clipping_value_1 clipping_value_2 : ℚ) :
    List (ℚ × ℚ) :=
  let x1c := clipT x1 clipping_value_1
  let x2c := clipT x2 clipping_value_2
  let r := batch_norm bnApply sqrt bn x1c x2c
  r.1.map (fun p => (current_to_voltage conversion_offset p.1 r.2.1,
    current_to_voltage conversion_offset p.2 r.2.2))

/-- `TwoToTwoToOneDNPU.forward` (source lines 158–167): affine conditioning,
then `process_layer` over `(input_node1, input_node2, bn1)`, then
`process_layer` over `(hidden_node1, hidden_node2, bn2)`, then `output_node`.
It takes the configuration as an argument to make visible that no part of the
forward pass reads it (in particular not `configs['batch_norm']`). -/
def forward (cfg : Configs)
    (bnApply : BatchNorm1d → List (ℚ × ℚ) → List (ℚ × ℚ)) (sqrt : ℚ → ℚ)
    (st : TwoToTwoToOneState) (x : List (ℚ × ℚ)) : List ℚ :=
  let x0 := x.map (fun p =>
    (st.scale.val * p.1 + st.offset.1, st.scale.val * p.2 + st.offset.2))
  let l1 := process_layer bnApply sqrt st.conversion_offset
    (x0.map st.input_node1.forward) (x0.map st.input_node2.forward)
    st.bn1 st.input_node1_clipping_value st.input_node2_clipping_value
  let l2 := process_layer bnApply sqrt st.conversion_offset
    (l1.map st.hidden_node1.forward) (l1.map st.hidden_node2.forward)
    st.bn2 st.hidden_node1_clipping_value st.hidden_node2_clipping_value
  l2.map st.output_node.forward
-- The unused `cfg` argument is the point: `forward` never reads the configuration.

/-- `TwoToTwoToOneDNPU.reset` (source lines 196–207). Each device's `reset()`
reinitialises external trainable state, so the freshly reset devices enter as
arguments; `offset.data.uniform_(offset_min, offset_max)` yields `offsetDraw`
(a draw the sampler guarantees lies in `[offset_min, offset_max]`); the scale
is rebuilt by `init_scale`; and `bn1`, `bn2` are rebuilt as fresh
`BatchNorm1d(2, affine=False)` modules only under `if configs['batch_norm']`. -/
def reset (cfg : Configs) (st : TwoToTwoToOneState)
    (fresh1 fresh2 freshH1 freshH2 freshOut : Device)
    (offsetDraw : ℚ × ℚ) (uScale : ℚ) : TwoToTwoToOneState :=
  { st with
    input_node1 := fresh1
    input_node2 := fresh2
    hidden_node1 := freshH1
    hidden_node2 := freshH2
    output_node := freshOut
    offset := offsetDraw
    scale := init_scale cfg uScale
    bn1 := if cfg.batch_norm then freshBatchNorm else st.bn1
    bn2 := if cfg.batch_norm then freshBatchNorm else st.bn2 }

/-- The state owned by a `TwoToOneDNPU` instance. Modelled from the spec: the
entire body of `TwoToOneDNPU` is commented out in the source (its `__init__`
is `pass`), so the 2-layer variant's fields are taken from the spec's 2-layer
architecture description (three devices, affine parameters, three clipping
values). -/
structure TwoToOneState where
  input_node1 : Device
  input_node2 : Device
  output_node : Device
  offset : ℚ × ℚ
  scale : ScaleParam
  input_node1_clipping_value : ℚ
  input_node2_clipping_value : ℚ
  output_node_clipping_value : ℚ

/-- Modelled from the spec: `TwoToOneDNPU.forward` under the no-batch-norm
policy (`process_layer1_alone`) is commented out in the source, so this
follows the spec's 2-layer pipeline: affine conditioning, the two input
devices, a per-device static clip of each device's column
(`process_layer1_alone`), the output device, and a final output clip
(`process_output_layer`). One batch row. -/
def twoToOne_forward_alone (st : TwoToOneState) (x : ℚ × ℚ) : ℚ :=
  let x0 := (st.scale.val * x.1 + st.offset.1, st.scale.val * x.2 + st.offset.2)
  let x1 := st.input_node1.forward x0
  let x2 := st.input_node2.forward x0
  let xc := (clip x1 st.input_node1_clipping_value,
    clip x2 st.input_node2_clipping_value)
  let y := st.output_node.forward xc
  clip y st.output_node_clipping_value

/-! ## Helper lemmas -/

theorem relu_of_nonpos {x : ℚ} (h : x ≤ 0) : relu x = 0 := max_eq_right h

theorem clip_le (x c : ℚ) : clip x c ≤ c := min_le_right _ _

theorem neg_le_clip (x : ℚ) {c : ℚ} (h : -c ≤ c) : -c ≤ clip x c :=
  le_min (le_max_right _ _) h

theorem clip_eq_self {x c : ℚ} (h1 : -c ≤ x) (h2 : x ≤ c) : clip x c = x := by
  unfold clip
  rw [max_eq_left h1, min_eq_left h2]

theorem offset_penalty_eq_zero {cfg : Configs} {o : ℚ × ℚ}
    (h1 : cfg.offset_min ≤ o.1) (h2 : o.1 ≤ cfg.offset_max)
    (h3 : cfg.offset_min ≤ o.2) (h4 : o.2 ≤ cfg.offset_max) :
    offset_penalty cfg o = 0 := by
  unfold offset_penalty
  rw [relu_of_nonpos (by linarith), relu_of_nonpos (by linarith),
    relu_of_nonpos (by linarith), relu_of_nonpos (by linarith)]
  ring

/-! ## Concrete instances used by the concrete-input theorems -/

/-- A device whose `regularizer()` returns `0` (forward: first input column). -/
def zeroDevice : Device := ⟨fun p => p.1, 1, 0⟩

/-- A device whose `regularizer()` returns `1` (forward: first input column). -/
def oneRegDevice : Device := ⟨fun p => p.1, 1, 1⟩

/-- Configuration for the C1 evaluation: offset range `[-1, 1]`,
scale range `[0, 2]`. -/
def c1Configs : Configs := ⟨-1, 1, 0, 2, 0, 1, true⟩

/-- A 3-layer state whose two hidden devices report `regularizer() = 1` while
every other device penalty and both affine penalties are `0`. -/
def c1State : TwoToTwoToOneState where
  input_node1 := zeroDevice
  input_node2 := zeroDevice
  hidden_node1 := oneRegDevice
  hidden_node2 := oneRegDevice
  output_node := zeroDevice
  offset := (0, 0)
  scale := ⟨1, true⟩
  bn1 := freshBatchNorm
  bn2 := freshBatchNorm
  conversion_offset := 0
  input_node1_clipping_value := 1
  input_node2_clipping_value := 1
  hidden_node1_clipping_value := 1
  hidden_node2_clipping_value := 1
  output_node_clipping_value := 1

/-- Configuration with the degenerate-but-legal offset range `[1, 1]`. -/
def c2Configs : Configs := ⟨1, 1, 1, 1, 0, 1, true⟩

/-- Configuration with offset range `[0, 2]` (so `offset_min ≤ 0 ≤ offset_max`). -/
def c2wConfigs : Configs := ⟨0, 2, 1, 1, 0, 1, true⟩

/-- Configuration with `batch_norm = false`. -/
def c3Configs : Configs := ⟨-1, 1, 1, 1, 0, 1, false⟩

/-- A 3-layer state whose batch-norm modules hold accumulated (non-fresh)
running statistics. -/
def c3State : TwoToTwoToOneState := { c1State with bn1 := ⟨(3, 3), (5, 5)⟩, bn2 := ⟨(3, 3), (5, 5)⟩ }

/-- Configuration with offset range `[0, 2]` used for the reset witness. -/
def c10Configs : Configs := ⟨0, 2, 1, 1, 0, 1, true⟩

/-- Configuration with the degenerate scale range `scale.min = scale.max = 1`. -/
def degScaleConfigs : Configs := ⟨-1, 1, 1, 1, 0, 1, true⟩

/-- Configuration with a non-degenerate scale range `[0, 2]`. -/
def genScaleConfigs : Configs := ⟨-1, 1, 0, 2, 0, 1, true⟩

/-- Input device returning the first column of its input (identity on channel 1),
with `amplification() = 1` (the C4 scenario's first input device). -/
def identity1Device : Device := ⟨fun p => p.1, 1, 0⟩

/-- Input device returning the second column of its input (identity on channel 2),
with `amplification() = 1` (the C4 scenario's second input device). -/
def identity2Device : Device := ⟨fun p => p.2, 1, 0⟩

/-- Output device summing its two input channels, with `amplification() = 1`. -/
def sumDevice : Device := ⟨fun p => p.1 + p.2, 1, 0⟩

/-- The C4 scenario's 2-layer state: `offset = [0, 0]`, `scale = 1.0` (frozen),
clipping values `waveform.output_clipping_value * amplification() = 1 * 1`. -/
def c4State : TwoToOneState where
  input_node1 := identity1Device
  input_node2 := identity2Device
  output_node := sumDevice
  offset := (0, 0)
  scale := ⟨1, false⟩
  input_node1_clipping_value := clipping_value 1 identity1Device
  input_node2_clipping_value := clipping_value 1 identity2Device
  output_node_clipping_value := clipping_value 1 sumDevice

/-! ## Claim theorems -/

/-- C1: at a state where the two hidden devices report `regularizer() = 1` and
every other penalty is `0`, `TwoToTwoToOneDNPU.regularizer` returns `0`,
whereas the sum over every owned device (the claim's statement, including
`hidden_node1` and `hidden_node2`) is `2`: the code drops the two hidden
devices' penalties from the sum. -/
theorem C1_regularizer_drops_hidden_penalties :
    regularizer c1Configs c1State = 0 ∧ regularizer_spec c1Configs c1State = 2 ∧
      regularizer c1Configs c1State ≠ regularizer_spec c1Configs c1State := by
  refine ⟨?_, ?_, ?_⟩ <;>
    norm_num [regularizer, regularizer_spec, offset_penalty, scale_penalty,
      relu, max_def, c1Configs, c1State, zeroDevice, oneRegDevice]

/-- C2 (counterexample): with the configured offset range `[1, 1]` (which
satisfies `offset.min ≤ offset.max`) and the legal uniform draw `u = (1/2, 1/2)`,
`init_offset` produces `offset = (3/2, 3/2)`, whose components exceed
`offset.max`, and `offset_penalty()` is `1 ≠ 0`: the claim fails as stated
because the source samples `offset_min + offset_max * rand()`, not uniformly
from `[offset_min, offset_max]`. -/
theorem C2_counterexample :
    c2Configs.offset_min ≤ c2Configs.offset_max ∧
    (0 : ℚ) ≤ 1/2 ∧ (1/2 : ℚ) < 1 ∧
    c2Configs.offset_max <
      (init_offset c2Configs.offset_min c2Configs.offset_max (1/2, 1/2)).1 ∧
    offset_penalty c2Configs
      (init_offset c2Configs.offset_min c2Configs.offset_max (1/2, 1/2)) ≠ 0 := by
  refine ⟨by norm_num [c2Configs], by norm_num, by norm_num, ?_, ?_⟩ <;>
    norm_num [c2Configs, init_offset, offset_penalty, relu, max_def]

/-- C2 (amended): for every configuration with `offset.min ≤ 0 ≤ offset.max`,
immediately after construction each component of the offset (sampled as
`offset_min + offset_max * u` with `u` uniform in `[0, 1)`) lies within
`[offset.min, offset.max]`, and `offset_penalty()` evaluates to `0`. -/
theorem C2_fresh_offset_in_range (cfg : Configs) (u : ℚ × ℚ)
    (hmin : cfg.offset_min ≤ 0) (hmax : 0 ≤ cfg.offset_max)
    (hu1 : 0 ≤ u.1) (hu1' : u.1 < 1) (hu2 : 0 ≤ u.2) (hu2' : u.2 < 1) :
    (cfg.offset_min ≤ (init_offset cfg.offset_min cfg.offset_max u).1 ∧
      (init_offset cfg.offset_min cfg.offset_max u).1 ≤ cfg.offset_max) ∧
    (cfg.offset_min ≤ (init_offset cfg.offset_min cfg.offset_max u).2 ∧
      (init_offset cfg.offset_min cfg.offset_max u).2 ≤ cfg.offset_max) ∧
    offset_penalty cfg (init_offset cfg.offset_min cfg.offset_max u) = 0 := by
  have m1 : 0 ≤ cfg.offset_max * u.1 := mul_nonneg hmax hu1
  have m1' : cfg.offset_max * u.1 ≤ cfg.offset_max := by nlinarith
  have m2 : 0 ≤ cfg.offset_max * u.2 := mul_nonneg hmax hu2
  have m2' : cfg.offset_max * u.2 ≤ cfg.offset_max := by nlinarith
  have p1 : (init_offset cfg.offset_min cfg.offset_max u).1
      = cfg.offset_min + cfg.offset_max * u.1 := rfl
  have p2 : (init_offset cfg.offset_min cfg.offset_max u).2
      = cfg.offset_min + cfg.offset_max * u.2 := rfl
  refine ⟨⟨by rw [p1]; linarith, by rw [p1]; linarith⟩,
    ⟨by rw [p2]; linarith, by rw [p2]; linarith⟩,
    offset_penalty_eq_zero (by rw [p1]; linarith) (by rw [p1]; linarith)
      (by rw [p2]; linarith) (by rw [p2]; linarith)⟩

/-- Witness for C2 (amended): configuration `c2wConfigs` (offset range `[0, 2]`)
with the draw `u = (0, 0)`. -/
theorem C2_fresh_offset_in_range_witness :
    (c2wConfigs.offset_min ≤
        (init_offset c2wConfigs.offset_min c2wConfigs.offset_max (0, 0)).1 ∧
      (init_offset c2wConfigs.offset_min c2wConfigs.offset_max (0, 0)).1 ≤
        c2wConfigs.offset_max) ∧
    (c2wConfigs.offset_min ≤
        (init_offset c2wConfigs.offset_min c2wConfigs.offset_max (0, 0)).2 ∧
      (init_offset c2wConfigs.offset_min c2wConfigs.offset_max (0, 0)).2 ≤
        c2wConfigs.offset_max) ∧
    offset_penalty c2wConfigs
      (init_offset c2wConfigs.offset_min c2wConfigs.offset_max (0, 0)) = 0 :=
  C2_fresh_offset_in_range c2wConfigs (0, 0) (by decide) (by decide)
    (by decide) (by decide) (by decide) (by decide)

/-- C3 (counterexample): with `batch_norm = false` in the configuration,
`TwoToTwoToOneDNPU.reset` does not reconstruct the normalization-statistics
objects: starting from accumulated statistics `(mean, var) = ((3,3), (5,5))`,
after `reset` both `bn1` and `bn2` still hold them and differ from a fresh
module — refuting "for every configuration". -/
theorem C3_counterexample :
    (reset c3Configs c3State zeroDevice zeroDevice zeroDevice zeroDevice
        zeroDevice (0, 0) 0).bn1 ≠ freshBatchNorm ∧
    (reset c3Configs c3State zeroDevice zeroDevice zeroDevice zeroDevice
        zeroDevice (0, 0) 0).bn1 = c3State.bn1 ∧
    (reset c3Configs c3State zeroDevice zeroDevice zeroDevice zeroDevice
        zeroDevice (0, 0) 0).bn2 = c3State.bn2 := by
  refine ⟨by decide, rfl, rfl⟩

/-- C3 (amended): `reset()` on the 3-layer variant replaces every owned device
by its freshly reset counterpart, sets the offset to the uniform
`[offset_min, offset_max]` draw, reconstructs the scale via the
construction-time `init_scale` rule, and reconstructs `bn1`/`bn2` as fresh
`BatchNorm1d` modules (running mean `0`, running variance `1`) exactly when
`configs['batch_norm']` is true — when it is false the prior running
statistics are kept. -/
theorem C3_reset_characterisation (cfg : Configs) (st : TwoToTwoToOneState)
    (f1 f2 g1 g2 fo : Device) (draw : ℚ × ℚ) (u : ℚ) :
    (reset cfg st f1 f2 g1 g2 fo draw u).input_node1 = f1 ∧
    (reset cfg st f1 f2 g1 g2 fo draw u).input_node2 = f2 ∧
    (reset cfg st f1 f2 g1 g2 fo draw u).hidden_node1 = g1 ∧
    (reset cfg st f1 f2 g1 g2 fo draw u).hidden_node2 = g2 ∧
    (reset cfg st f1 f2 g1 g2 fo draw u).output_node = fo ∧
    (reset cfg st f1 f2 g1 g2 fo draw u).offset = draw ∧
    (reset cfg st f1 f2 g1 g2 fo draw u).scale = init_scale cfg u ∧
    ((reset cfg st f1 f2 g1 g2 fo draw u).bn1
      = if cfg.batch_norm then freshBatchNorm else st.bn1) ∧
    ((reset cfg st f1 f2 g1 g2 fo draw u).bn2
      = if cfg.batch_norm then freshBatchNorm else st.bn2) ∧
    freshBatchNorm.running_mean = (0, 0) ∧ freshBatchNorm.running_var = (1, 1) :=
  ⟨rfl, rfl, rfl, rfl, rfl, rfl, rfl, rfl, rfl, rfl, rfl⟩

/-- C4: end-to-end 2-layer scenario, no batch-norm policy. With
`offset = [0, 0]`, `scale = 1.0`, identity input devices of amplification `1`,
`waveform.output_clipping_value = 1`, and a summing output device, the input
`x = [[2.0, -2.0]]` yields device outputs clipped to `[1.0, -1.0]`, the output
device receives and sums them, and the final output is `0.0`. -/
theorem C4_end_to_end_two_layer_scenario :
    clip (identity1Device.forward (2, -2)) c4State.input_node1_clipping_value = 1 ∧
    clip (identity2Device.forward (2, -2)) c4State.input_node2_clipping_value = -1 ∧
    sumDevice.forward (1, -1) = 0 ∧
    twoToOne_forward_alone c4State (2, -2) = 0 := by
  refine ⟨?_, ?_, ?_, ?_⟩ <;>
    norm_num [twoToOne_forward_alone, clip, c4State, identity1Device,
      identity2Device, sumDevice, clipping_value, min_def, max_def]

/-- C5: at `std = 0` (a channel whose running variance is exactly `0`, so
`std = sqrt(running_variance) = 0`), the divisor `4 * std` of
`current_to_voltage` is `0`, the clip bound `2 * std` collapses every input to
`0`, and the unguarded division by zero is reached for every input `x`
(observably `none` in the checked embedding): no minimum-variance floor or
other guard exists on this path. -/
theorem C5_division_by_zero_unguarded (conversion_offset x : ℚ) :
    c2v_divisor 0 = 0 ∧ clip x (2 * 0) = 0 ∧
      current_to_voltage_checked conversion_offset x 0 = none := by
  refine ⟨by norm_num [c2v_divisor], ?_, by simp [current_to_voltage_checked, c2v_divisor]⟩
  rw [show (2 * (0:ℚ)) = 0 by norm_num, clip, neg_zero,
    min_eq_right (le_max_right x 0)]

/-- C6: if `scale.min = scale.max = 1.0` then after construction the scale is
exactly `1.0` and is not a trainable parameter (a plain tensor the optimiser
never touches); for any other configured range the scale is a trainable
`nn.Parameter` with value `scale_min + scale_max * u`. -/
theorem C6_degenerate_scale_frozen (cfg : Configs) (u : ℚ) :
    (cfg.scale_min = 1 ∧ cfg.scale_max = 1 → init_scale cfg u = ⟨1, false⟩) ∧
    (¬(cfg.scale_min = 1 ∧ cfg.scale_max = 1) →
      (init_scale cfg u).val = cfg.scale_min + cfg.scale_max * u ∧
        (init_scale cfg u).trainable = true) := by
  constructor
  · intro h
    unfold init_scale
    rw [if_pos h]
  · intro h
    unfold init_scale
    rw [if_neg h]
    exact ⟨rfl, rfl⟩

/-- Witness for C6: the degenerate range `[1, 1]` yields the frozen scale `1`;
the range `[0, 2]` yields a trainable scale. -/
theorem C6_degenerate_scale_frozen_witness :
    init_scale degScaleConfigs 0 = ⟨1, false⟩ ∧
      (init_scale genScaleConfigs 0).trainable = true :=
  ⟨(C6_degenerate_scale_frozen degScaleConfigs 0).1 (by decide),
    ((C6_degenerate_scale_frozen genScaleConfigs 0).2 (by decide)).2⟩

/-- C7: clipping is idempotent — for every tensor `xs` and every bound
`b > 0`, `clip(clip(xs, b), b) = clip(xs, b)` elementwise. -/
theorem C7_clip_idempotent (xs : List ℚ) (b : ℚ) (hb : 0 < b) :
    clipT (clipT xs b) b = clipT xs b := by
  unfold clipT
  rw [List.map_map]
  apply List.map_congr_left
  intro a _
  exact clip_eq_self (neg_le_clip a (by linarith)) (clip_le a b)

/-- Witness for C7: the tensor `[3, -5, 0]` with bound `1`. -/
theorem C7_clip_idempotent_witness :
    clipT (clipT [3, -5, 0] 1) 1 = clipT [3, -5, 0] 1 :=
  C7_clip_idempotent [3, -5, 0] 1 (by decide)

/-- C8: the 3-layer forward pass applies the full statistical conditioning
stage (clip, then batch-norm, then current-to-voltage — `process_layer`) at
both layer boundaries for every configuration: it never reads
`configs['batch_norm']` (its result is unchanged under any flag value), while
`reset` reconstructs `bn1`/`bn2` exactly when the flag is set. -/
theorem C8_batch_norm_flag_scope (cfg : Configs) (b : Bool)
    (bnApply : BatchNorm1d → List (ℚ × ℚ) → List (ℚ × ℚ)) (sqrt : ℚ → ℚ)
    (st : TwoToTwoToOneState) (x : List (ℚ × ℚ))
    (f1 f2 g1 g2 fo : Device) (draw : ℚ × ℚ) (u : ℚ) :
    forward cfg bnApply sqrt st x
        = forward { cfg with batch_norm := b } bnApply sqrt st x ∧
    ((reset cfg st f1 f2 g1 g2 fo draw u).bn1
        = if cfg.batch_norm then freshBatchNorm else st.bn1) ∧
    ((reset cfg st f1 f2 g1 g2 fo draw u).bn2
        = if cfg.batch_norm then freshBatchNorm else st.bn2) :=
  ⟨rfl, rfl, rfl⟩

/-- C9: for every `std > 0` and every input `x`, `current_to_voltage(x, std)`
lies in the fixed interval `[conversion_offset - 0.9, conversion_offset + 0.9]`:
the clipped value is bounded by `2 * std` and the scale factor is
`1.8 / (4 * std)`, so the bound does not depend on `std`. -/
theorem C9_current_to_voltage_bounded (conversion_offset x std : ℚ)
    (h : 0 < std) :
    conversion_offset - 9/10 ≤ current_to_voltage conversion_offset x std ∧
      current_to_voltage conversion_offset x std ≤ conversion_offset + 9/10 := by
  have hs : std ≠ 0 := ne_of_gt h
  have hc1 : -(2 * std) ≤ clip x (2 * std) := neg_le_clip x (by linarith)
  have hc2 : clip x (2 * std) ≤ 2 * std := clip_le x (2 * std)
  have hf : (0:ℚ) < 1.8 / (4 * std) := by positivity
  have key : (1.8 / (4 * std)) * (2 * std) = 9/10 := by field_simp; ring_nf
  have u1 : (1.8 / (4 * std)) * clip x (2 * std) ≤ 9/10 :=
    key ▸ mul_le_mul_of_nonneg_left hc2 hf.le
  have u2 : -(9/10 : ℚ) ≤ (1.8 / (4 * std)) * clip x (2 * std) := by
    have h2 := mul_le_mul_of_nonneg_left hc1 hf.le
    rw [mul_neg, key] at h2
    exact h2
  unfold current_to_voltage c2v_divisor
  constructor <;> linarith

/-- Witness for C9: `x = 5`, `std = 1`, `conversion_offset = 0`. -/
theorem C9_current_to_voltage_bounded_witness :
    (0 : ℚ) - 9/10 ≤ current_to_voltage 0 5 1 ∧
      current_to_voltage 0 5 1 ≤ (0 : ℚ) + 9/10 :=
  C9_current_to_voltage_bounded 0 5 1 (by decide)

/-- C10: after `reset()` on the 3-layer variant with
`offset.min ≤ offset.max`, every component of the offset equals the draw
`uniform_(offset_min, offset_max)` produced — which lies in
`[offset.min, offset.max]` — and therefore `offset_penalty()` is `0`
immediately after reset. -/
theorem C10_reset_offset_penalty_zero (cfg : Configs) (st : TwoToTwoToOneState)
    (f1 f2 g1 g2 fo : Device) (draw : ℚ × ℚ) (u : ℚ)
    (hmm : cfg.offset_min ≤ cfg.offset_max)
    (ha : cfg.offset_min ≤ draw.1) (hb : draw.1 ≤ cfg.offset_max)
    (hc : cfg.offset_min ≤ draw.2) (hd : draw.2 ≤ cfg.offset_max) :
    (cfg.offset_min ≤ (reset cfg st f1 f2 g1 g2 fo draw u).offset.1 ∧
      (reset cfg st f1 f2 g1 g2 fo draw u).offset.1 ≤ cfg.offset_max) ∧
    (cfg.offset_min ≤ (reset cfg st f1 f2 g1 g2 fo draw u).offset.2 ∧
      (reset cfg st f1 f2 g1 g2 fo draw u).offset.2 ≤ cfg.offset_max) ∧
    offset_penalty cfg (reset cfg st f1 f2 g1 g2 fo draw u).offset = 0 :=
  ⟨⟨ha, hb⟩, ⟨hc, hd⟩, offset_penalty_eq_zero ha hb hc hd⟩

/-- Witness for C10: configuration with offset range `[0, 2]`, draw `(1, 2)`. -/
theorem C10_reset_offset_penalty_zero_witness :
    (c10Configs.offset_min ≤
        (reset c10Configs c3State zeroDevice zeroDevice zeroDevice zeroDevice
          zeroDevice (1, 2) 0).offset.1 ∧
      (reset c10Configs c3State zeroDevice zeroDevice zeroDevice zeroDevice
          zeroDevice (1, 2) 0).offset.1 ≤ c10Configs.offset_max) ∧
    (c10Configs.offset_min ≤
        (reset c10Configs c3State zeroDevice zeroDevice zeroDevice zeroDevice
          zeroDevice (1, 2) 0).offset.2 ∧
      (reset c10Configs c3State zeroDevice zeroDevice zeroDevice zeroDevice
          zeroDevice (1, 2) 0).offset.2 ≤ c10Configs.offset_max) ∧
    offset_penalty c10Configs
      (reset c10Configs c3State zeroDevice zeroDevice zeroDevice zeroDevice
        zeroDevice (1, 2) 0).offset = 0 :=
  C10_reset_offset_penalty_zero c10Configs c3State zeroDevice zeroDevice
    zeroDevice zeroDevice zeroDevice (1, 2) 0 (by decide) (by decide)
    (by decide) (by decide) (by decide)

end DNPU
